import Mathlib

/-
Verification of verify_setup.py, the setup-verification script of PRC.

The script is pure sequential I/O against the operating system: it spawns
child processes, imports Python modules, reads one environment variable and
prints a report. We embed it shallowly: the operating system is an oracle
record Env, and each Python construct that can observe the system reads the
corresponding oracle field. Python exceptions are modelled with Except:
an exception that the source catches is an ordinary constructor of the
oracle answer type, and an exception the source does not catch propagates
as an Except.error value, exactly as the uncaught Python exception would
propagate out of the function.
-/

deriving instance DecidableEq for Except

namespace VerifySetup

/-- Result record of a completed subprocess.run call: the subprocess module
returns the return code together with the captured output streams. -/
structure CompletedProcess where
  returncode : Int
  stdout : String
  stderr : String
deriving DecidableEq

/-- Possible outcomes of one subprocess.run invocation: the child runs to
completion within the timeout, or the executable is not found
(FileNotFoundError), or the timeout expires (subprocess.TimeoutExpired), or
some other exception is raised (PermissionError, OSError, ...), carried as
a description string. -/
inductive RunOutcome where
  | completed (p : CompletedProcess)
  | fileNotFound
  | timeoutExpired
  | raised (e : String)
deriving DecidableEq

/-- Arguments of one subprocess.run call as made by the script: the argv
list, the capture_output flag and the timeout in seconds. -/
structure RunCall where
  argv : List String
  capture_output : Bool
  timeout : Nat
deriving DecidableEq

/-- Possible outcomes of one __import__ call: the module loads, or the
machinery of import raises ImportError (module absent), or loading raises
some other exception (for instance the module body itself failing), carried as a
description string. Only the ImportError case is caught by the source. -/
inductive ImportOutcome where
  | ok
  | importError
  | raised (e : String)
deriving DecidableEq

/-- The operating-system oracle: how subprocess.run answers each call, how
__import__ answers each module name, the interpreter version tuple
sys.version_info (major, minor, micro), the display string sys.version, and
os.getenv. -/
structure Env where
  run : RunCall → RunOutcome
  importModule : String → ImportOutcome
  version_info : Nat × Nat × Nat
  version : String
  getenv : String → Option String

/-- Embedding of check_command (verify_setup.py lines 13-23). It invokes
the command with the --version flag, except checkov which gets -v, with
capture_output true and timeout 10, and returns returncode == 0; it catches
FileNotFoundError and subprocess.TimeoutExpired, returning false; any other
exception propagates (Except.error). The name argument is unused, as in the
source. -/
def check_command (env : Env) (cmd name : String) : Except String Bool :=
  match env.run ⟨if cmd != "checkov" then [cmd, "--version"] else [cmd, "-v"], true, 10⟩ with
  | .completed result => .ok (result.returncode == 0)
  | .fileNotFound => .ok false
  | .timeoutExpired => .ok false
  | .raised e => .error e

/-- Embedding of check_python_module (verify_setup.py lines 25-31). It
attempts __import__(module) and returns true on success; it catches only
ImportError, returning false; any other exception raised during the import
propagates (Except.error). -/
def check_python_module (env : Env) (module : String) : Except String Bool :=
  match env.importModule module with
  | .ok => .ok true
  | .importError => .ok false
  | .raised e => .error e

/-- The required_packages table of main (lines 47-50): pairs of display
name and import name. -/
def required_packages : List (String × String) :=
  [("click", "click"), ("rich", "rich")]

/-- The optional_packages table of main (lines 60-63): display name, import
name and description. -/
def optional_packages : List (String × String × String) :=
  [("reportlab", "reportlab", "PDF report generation"),
   ("openai", "openai", "AI-powered insights")]

/-- The external_tools table of main (lines 74-78): command, display name,
description and install hint. -/
def external_tools : List (String × String × String × String) :=
  [("trivy", "Trivy", "Vulnerability scanner",
    "https://trivy.dev/latest/getting-started/installation/"),
   ("checkov", "Checkov", "IaC scanner", "pip install checkov"),
   ("gitleaks", "Gitleaks", "Secret detection",
    "https://github.com/gitleaks/gitleaks#installing")]

/-- Embedding of the Python comparison sys.version_info < (3, 9): tuple
comparison is lexicographic, and since version_info has at least three
components, a version_info whose first two components equal the threshold
compares greater or equal, never less. -/
def versionInfoLt (v : Nat × Nat × Nat) (t : Nat × Nat) : Bool :=
  decide (v.1 < t.1) || (v.1 == t.1 && decide (v.2.1 < t.2))

/-- Embedding of the Python truthiness test used at line 110: the value
read by os.getenv is truthy when the variable is set to a non-empty
string; None and the empty string are falsy. -/
def pyTruthy : Option String → Bool
  | none => false
  | some s => !s.isEmpty

/-- The line "=" * 60 of the report. -/
def bannerLine : String := String.mk (List.replicate 60 '=')

/-- The loop over required_packages (lines 52-56): one line per package,
OK or MISSING. Propagates the first uncaught exception of a probe, as the
Python for-loop would. -/
def report_required (env : Env) : List (String × String) → Except String (List String)
  | [] => .ok []
  | (package_name, import_name) :: rest => do
    let b ← check_python_module env import_name
    let restLines ← report_required env rest
    if b then
      .ok (("  [OK] " ++ package_name ++ " installed") :: restLines)
    else
      .ok (("  [MISSING] " ++ package_name ++ " - install with: pip install " ++ package_name)
        :: restLines)

/-- The loop over optional_packages (lines 65-70): one line per installed
package, two lines per missing one. -/
def report_optional (env : Env) : List (String × String × String) → Except String (List String)
  | [] => .ok []
  | (package_name, import_name, description) :: rest => do
    let b ← check_python_module env import_name
    let restLines ← report_optional env rest
    if b then
      .ok (("  [OK] " ++ package_name ++ " - " ++ description) :: restLines)
    else
      .ok (("  [OPTIONAL] " ++ package_name ++ " - " ++ description)
        :: ("             Install with: pip install " ++ package_name)
        :: restLines)

/-- The loop over external_tools (lines 80-87): produces the printed lines
together with the final value of the tools_available counter. -/
def report_tools (env : Env) :
    List (String × String × String × String) → Except String (List String × Nat)
  | [] => .ok ([], 0)
  | (cmd, name, description, install_info) :: rest => do
    let b ← check_command env cmd name
    let res ← report_tools env rest
    if b then
      .ok ((("  [OK] " ++ name ++ " - " ++ description) :: res.1), res.2 + 1)
    else
      .ok ((("  [NOT INSTALLED] " ++ name ++ " - " ++ description)
        :: ("                  Install: " ++ install_info)
        :: res.1), res.2)

/-- Embedding of main (verify_setup.py lines 33-119) as the list of strings
it prints, one list element per print call, in order. A probe exception
that main does not catch aborts the run and propagates (Except.error); the
source order of the probes is preserved, so the propagated exception is the
first one raised. -/
def main_run (env : Env) : Except String (List String) := do
  let reqLines ← report_required env required_packages
  let optLines ← report_optional env optional_packages
  let tl ← report_tools env external_tools
  .ok (
    [bannerLine, "PRC Setup Verification", bannerLine]
    ++ ["\nPython Version: " ++ env.version]
    ++ [if versionInfoLt env.version_info (3, 9) then
          "  [WARNING] Python 3.9+ is recommended"
        else
          "  [OK] Python version is compatible"]
    ++ ["\n--- Required Python Packages ---"]
    ++ reqLines
    ++ ["\n--- Optional Python Packages ---"]
    ++ optLines
    ++ ["\n--- External Scanning Tools ---"]
    ++ tl.1
    ++ ["\n--- Built-in Scanner ---",
        "  [ALWAYS AVAILABLE] Built-in Secret Scanner",
        "                     Detects hardcoded passwords, API keys, K8s secrets"]
    ++ ["\n" ++ bannerLine, "Summary", bannerLine]
    ++ (if tl.2 == 0 then
          ["\n[INFO] No external tools installed.",
           "       PRC will use the built-in secret scanner only.",
           "       For comprehensive scanning, install Trivy, Checkov, or Gitleaks."]
        else
          ["\n[OK] " ++ toString tl.2 ++ " external tool(s) available + built-in scanner"])
    ++ ["\n--- Environment Variables ---"]
    ++ (if pyTruthy (env.getenv "OPENAI_API_KEY") then
          ["  [OK] OPENAI_API_KEY is set (AI insights enabled)"]
        else
          ["  [NOT SET] OPENAI_API_KEY - AI insights will use fallback mode",
           "            Set with: export OPENAI_API_KEY=your-key"])
    ++ ["\n" ++ bannerLine, "To run a scan:", "  python -m src.cli.main scan /path/to/project",
        bannerLine])

/-- Exit status of the whole script run (line 121-122): a Python process
exits with status 0 when main returns, and with status 1 when an uncaught
exception escapes main. -/
def script_exit_code (env : Env) : Nat :=
  match main_run env with
  | .ok _ => 0
  | .error _ => 1

/-- A string occurs as a contiguous substring of another. -/
def containsSub (line sub : String) : Prop :=
  ∃ s t : String, line = s ++ sub ++ t

/-- Some printed line has the given substring. -/
def outputContains (out : List String) (sub : String) : Prop :=
  ∃ line ∈ out, containsSub line sub

/-- Concrete oracle: every executable is missing, every module import fails
with ImportError, no environment variable is set, interpreter 3.11.0. -/
def envAllMissing : Env :=
  ⟨fun _ => RunOutcome.fileNotFound, fun _ => ImportOutcome.importError,
   (3, 11, 0), "3.11.0", fun _ => none⟩

/-- Concrete oracle: every spawned process exceeds the timeout, every
module imports fine, no environment variable is set. -/
def envAllTimeout : Env :=
  ⟨fun _ => RunOutcome.timeoutExpired, fun _ => ImportOutcome.ok,
   (3, 11, 0), "3.11.0", fun _ => none⟩

/-- Concrete oracle: every spawned process exits 0 with empty output, every
module imports fine, OPENAI_API_KEY is set. -/
def envAllOk : Env :=
  ⟨fun _ => RunOutcome.completed ⟨0, "", ""⟩, fun _ => ImportOutcome.ok,
   (3, 11, 0), "3.11.0", fun _ => some "sk-key"⟩

/-- Concrete oracle identical to envAllOk except that every spawned process
also produces output on both captured streams. -/
def envAllOkLoud : Env :=
  ⟨fun _ => RunOutcome.completed ⟨0, "version 1.0", "some warning"⟩, fun _ => ImportOutcome.ok,
   (3, 11, 0), "3.11.0", fun _ => some "sk-key"⟩

/-- Concrete oracle where every module import raises an exception that is
not an ImportError. -/
def envRaisingImport : Env :=
  ⟨fun _ => RunOutcome.fileNotFound, fun _ => ImportOutcome.raised "RuntimeError",
   (3, 11, 0), "3.11.0", fun _ => none⟩

/-- Concrete oracle with an old interpreter (3.8.10), everything else
failing benignly. -/
def envOldPython : Env :=
  ⟨fun _ => RunOutcome.fileNotFound, fun _ => ImportOutcome.importError,
   (3, 8, 10), "3.8.10", fun _ => none⟩

/-- Concrete oracle whose environment has OPENAI_API_KEY set to the empty
string, everything else failing benignly. -/
def envEmptyKey : Env :=
  ⟨fun _ => RunOutcome.fileNotFound, fun _ => ImportOutcome.importError,
   (3, 11, 0), "3.11.0", fun k => if k = "OPENAI_API_KEY" then some "" else none⟩

/-- Replace only the getenv field of an oracle, keeping the subprocess
behaviour, the import behaviour, the version and the version string. -/
def setGetenv (env : Env) (g : String → Option String) : Env :=
  ⟨env.run, env.importModule, env.version_info, env.version, g⟩

/-- Decomposition of a successful run: every section probe returned
without an uncaught exception, and the output is the concatenation of the
section blocks in source order. -/
theorem main_run_ok (env : Env) (out : List String) (h : main_run env = Except.ok out) :
    ∃ reqLines optLines tl,
      report_required env required_packages = Except.ok reqLines ∧
      report_optional env optional_packages = Except.ok optLines ∧
      report_tools env external_tools = Except.ok tl ∧
      out =
        [bannerLine, "PRC Setup Verification", bannerLine]
        ++ ["\nPython Version: " ++ env.version]
        ++ [if versionInfoLt env.version_info (3, 9) then
              "  [WARNING] Python 3.9+ is recommended"
            else
              "  [OK] Python version is compatible"]
        ++ ["\n--- Required Python Packages ---"]
        ++ reqLines
        ++ ["\n--- Optional Python Packages ---"]
        ++ optLines
        ++ ["\n--- External Scanning Tools ---"]
        ++ tl.1
        ++ ["\n--- Built-in Scanner ---",
            "  [ALWAYS AVAILABLE] Built-in Secret Scanner",
            "                     Detects hardcoded passwords, API keys, K8s secrets"]
        ++ ["\n" ++ bannerLine, "Summary", bannerLine]
        ++ (if tl.2 == 0 then
              ["\n[INFO] No external tools installed.",
               "       PRC will use the built-in secret scanner only.",
               "       For comprehensive scanning, install Trivy, Checkov, or Gitleaks."]
            else
              ["\n[OK] " ++ toString tl.2 ++ " external tool(s) available + built-in scanner"])
        ++ ["\n--- Environment Variables ---"]
        ++ (if pyTruthy (env.getenv "OPENAI_API_KEY") then
              ["  [OK] OPENAI_API_KEY is set (AI insights enabled)"]
            else
              ["  [NOT SET] OPENAI_API_KEY - AI insights will use fallback mode",
               "            Set with: export OPENAI_API_KEY=your-key"])
        ++ ["\n" ++ bannerLine, "To run a scan:",
            "  python -m src.cli.main scan /path/to/project", bannerLine] := by
  unfold main_run at h
  cases hr : report_required env required_packages with
  | error e => rw [hr] at h; simp [Bind.bind, Except.bind] at h
  | ok reqLines =>
    rw [hr] at h
    cases ho : report_optional env optional_packages with
    | error e => rw [ho] at h; simp [Bind.bind, Except.bind] at h
    | ok optLines =>
      rw [ho] at h
      cases ht : report_tools env external_tools with
      | error e => rw [ht] at h; simp [Bind.bind, Except.bind] at h
      | ok tl =>
        rw [ht] at h
        simp only [Bind.bind, Except.bind, Except.ok.injEq] at h
        exact ⟨reqLines, optLines, tl, rfl, rfl, rfl, h.symm⟩

/-- C1: check_command returns true exactly when the spawned child starts,
completes within the timeout and exits with return code 0, and it returns
false (an ordinary Bool, no exception) both when the executable is not
found and when the process does not finish within the timeout. -/
theorem claim_c1 (env : Env) (cmd name : String) :
    (check_command env cmd name = Except.ok true ↔
      ∃ p : CompletedProcess,
        env.run ⟨if cmd != "checkov" then [cmd, "--version"] else [cmd, "-v"], true, 10⟩ =
          RunOutcome.completed p ∧ p.returncode = 0)
    ∧ (env.run ⟨if cmd != "checkov" then [cmd, "--version"] else [cmd, "-v"], true, 10⟩ =
          RunOutcome.fileNotFound →
        check_command env cmd name = Except.ok false)
    ∧ (env.run ⟨if cmd != "checkov" then [cmd, "--version"] else [cmd, "-v"], true, 10⟩ =
          RunOutcome.timeoutExpired →
        check_command env cmd name = Except.ok false) := by
  unfold check_command
  generalize env.run ⟨if cmd != "checkov" then [cmd, "--version"] else [cmd, "-v"], true, 10⟩ = r
  cases r <;> simp

/-- Witness for C1 at concrete oracles: missing executable gives false,
timeout gives false, exit code 0 gives true. -/
theorem claim_c1_witness :
    check_command envAllMissing "trivy" "Trivy" = Except.ok false ∧
    check_command envAllTimeout "trivy" "Trivy" = Except.ok false ∧
    check_command envAllOk "trivy" "Trivy" = Except.ok true :=
  ⟨(claim_c1 envAllMissing "trivy" "Trivy").2.1 rfl,
   (claim_c1 envAllTimeout "trivy" "Trivy").2.2 rfl,
   (claim_c1 envAllOk "trivy" "Trivy").1.2 ⟨⟨0, "", ""⟩, rfl, rfl⟩⟩

/-- C2: check_command consults the system through exactly one subprocess
invocation, whose argv is the command followed by the version flag
(-v for checkov, --version for every other command), with capture_output
set and a timeout of 10: two oracles agreeing on that one call give the
same result. Moreover nothing of the child is surfaced beyond the exit
code: two completed runs with the same return code but different captured
stdout and stderr give the same result. -/
theorem claim_c2 (cmd name : String) (env env' : Env) :
    (env.run ⟨if cmd != "checkov" then [cmd, "--version"] else [cmd, "-v"], true, 10⟩ =
       env'.run ⟨if cmd != "checkov" then [cmd, "--version"] else [cmd, "-v"], true, 10⟩ →
     check_command env cmd name = check_command env' cmd name)
    ∧ (∀ (rc : Int) (o1 e1 o2 e2 : String),
        env.run ⟨if cmd != "checkov" then [cmd, "--version"] else [cmd, "-v"], true, 10⟩ =
          RunOutcome.completed ⟨rc, o1, e1⟩ →
        env'.run ⟨if cmd != "checkov" then [cmd, "--version"] else [cmd, "-v"], true, 10⟩ =
          RunOutcome.completed ⟨rc, o2, e2⟩ →
        check_command env cmd name = check_command env' cmd name) := by
  constructor
  · intro h
    unfold check_command
    rw [h]
  · intro rc o1 e1 o2 e2 h1 h2
    unfold check_command
    rw [h1, h2]

/-- Witness for C2 at concrete oracles: two oracles answering the trivy
call with exit code 0 but different captured output give the same result. -/
theorem claim_c2_witness :
    check_command envAllMissing "checkov" "Checkov" = check_command envAllMissing "checkov" "Checkov" ∧
    check_command envAllOk "trivy" "Trivy" = check_command envAllOkLoud "trivy" "Trivy" :=
  ⟨(claim_c2 "checkov" "Checkov" envAllMissing envAllMissing).1 rfl,
   (claim_c2 "trivy" "Trivy" envAllOk envAllOkLoud).2 0 "" "" "version 1.0" "some warning" rfl rfl⟩

/-- C3 counterexample: the probe is not exception-free for every loadable
or non-loadable module. At an oracle where loading raises a RuntimeError
(the module exists but its body fails), check_python_module propagates the
exception instead of returning a boolean, because the source catches only
ImportError. -/
theorem claim_c3_cex :
    check_python_module envRaisingImport "click" = Except.error "RuntimeError" ∧
    check_python_module envRaisingImport "click" ≠ Except.ok true ∧
    check_python_module envRaisingImport "click" ≠ Except.ok false := by
  refine ⟨rfl, ?_, ?_⟩ <;> simp [check_python_module, envRaisingImport]

/-- C3 amended: check_python_module returns true exactly when the module
loads, returns false when loading fails with ImportError (module absent),
and propagates any exception other than ImportError raised by the load. -/
theorem claim_c3_amended (env : Env) (module : String) :
    (check_python_module env module = Except.ok true ↔
      env.importModule module = ImportOutcome.ok)
    ∧ (env.importModule module = ImportOutcome.importError →
        check_python_module env module = Except.ok false)
    ∧ (∀ e, env.importModule module = ImportOutcome.raised e →
        check_python_module env module = Except.error e) := by
  cases hm : env.importModule module <;> simp [check_python_module, hm]

/-- Witness for the amended C3 at concrete oracles: an absent module gives
false, a module raising RuntimeError propagates the error. -/
theorem claim_c3_witness :
    check_python_module envAllMissing "click" = Except.ok false ∧
    check_python_module envRaisingImport "rich" = Except.error "RuntimeError" :=
  ⟨(claim_c3_amended envAllMissing "click").2.1 rfl,
   (claim_c3_amended envRaisingImport "rich").2.2 "RuntimeError" rfl⟩

/-- One unfolding step of report_required on a cons cell whose probe and
tail both return without an uncaught exception. -/
theorem report_required_cons (env : Env) (pn im : String) (rest : List (String × String))
    (b : Bool) (L : List String)
    (hb : check_python_module env im = Except.ok b)
    (hL : report_required env rest = Except.ok L) :
    report_required env ((pn, im) :: rest) =
      Except.ok ((if b then ["  [OK] " ++ pn ++ " installed"]
        else ["  [MISSING] " ++ pn ++ " - install with: pip install " ++ pn]) ++ L) := by
  cases b <;> simp [report_required, hb, hL, Bind.bind, Except.bind]

/-- One unfolding step of report_optional on a cons cell whose probe and
tail both return without an uncaught exception. -/
theorem report_optional_cons (env : Env) (pn im ds : String)
    (rest : List (String × String × String)) (b : Bool) (L : List String)
    (hb : check_python_module env im = Except.ok b)
    (hL : report_optional env rest = Except.ok L) :
    report_optional env ((pn, im, ds) :: rest) =
      Except.ok ((if b then ["  [OK] " ++ pn ++ " - " ++ ds]
        else ["  [OPTIONAL] " ++ pn ++ " - " ++ ds,
              "             Install with: pip install " ++ pn]) ++ L) := by
  cases b <;> simp [report_optional, hb, hL, Bind.bind, Except.bind]

/-- One unfolding step of report_tools on a cons cell whose probe and tail
both return without an uncaught exception. -/
theorem report_tools_cons (env : Env) (c n d i : String)
    (rest : List (String × String × String × String)) (b : Bool) (tl : List String × Nat)
    (hb : check_command env c n = Except.ok b)
    (ht : report_tools env rest = Except.ok tl) :
    report_tools env ((c, n, d, i) :: rest) =
      Except.ok ((if b then ["  [OK] " ++ n ++ " - " ++ d]
        else ["  [NOT INSTALLED] " ++ n ++ " - " ++ d,
              "                  Install: " ++ i]) ++ tl.1,
        tl.2 + if b then 1 else 0) := by
  cases b <;> simp [report_tools, hb, ht, Bind.bind, Except.bind]

/-- Inversion of a successful report_tools step: the probe and the tail
both returned without an uncaught exception, and the line block and the
counter are determined by the probe result. -/
theorem report_tools_ok_inv (env : Env) (c n d i : String)
    (rest : List (String × String × String × String)) (tl : List String × Nat)
    (h : report_tools env ((c, n, d, i) :: rest) = Except.ok tl) :
    ∃ b rtl, check_command env c n = Except.ok b ∧ report_tools env rest = Except.ok rtl ∧
      tl = ((if b then ["  [OK] " ++ n ++ " - " ++ d]
        else ["  [NOT INSTALLED] " ++ n ++ " - " ++ d,
              "                  Install: " ++ i]) ++ rtl.1,
        rtl.2 + if b then 1 else 0) := by
  cases hb : check_command env c n with
  | error e => simp [report_tools, hb, Bind.bind, Except.bind] at h
  | ok b =>
    cases hL : report_tools env rest with
    | error e => simp [report_tools, hb, hL, Bind.bind, Except.bind] at h
    | ok rtl =>
      refine ⟨b, rtl, rfl, rfl, ?_⟩
      rw [report_tools_cons env c n d i rest b rtl hb hL] at h
      exact (Except.ok.injEq _ _ ▸ h).symm

/-- The tools_available counter of a successful tools section counts
exactly the table entries whose check_command probe returned true, and is
bounded by the table length. -/
theorem report_tools_count (env : Env) (l : List (String × String × String × String))
    (tl : List String × Nat) (h : report_tools env l = Except.ok tl) :
    tl.2 = List.countP (fun t => decide (check_command env t.1 t.2.1 = Except.ok true)) l ∧
      tl.2 ≤ l.length := by
  induction l generalizing tl with
  | nil =>
    simp only [report_tools, Except.ok.injEq] at h
    rw [← h]
    simp
  | cons p rest ih =>
    obtain ⟨c, n, d, i⟩ := p
    obtain ⟨b, rtl, hb, hrest, htl⟩ := report_tools_ok_inv env c n d i rest tl h
    obtain ⟨ihc, ihl⟩ := ih rtl hrest
    subst htl
    rw [List.countP_cons]
    simp only [List.length_cons]
    cases b <;> simp [hb, ihc] <;> omega

/-- Under an oracle that raises nothing that check_command does not catch,
check_command returns a boolean. -/
theorem check_command_no_raise (env : Env) (cmd name : String)
    (h : ∀ c e, env.run c ≠ RunOutcome.raised e) :
    ∃ b, check_command env cmd name = Except.ok b := by
  unfold check_command
  cases hr : env.run ⟨if cmd != "checkov" then [cmd, "--version"] else [cmd, "-v"], true, 10⟩ with
  | completed p => exact ⟨p.returncode == 0, rfl⟩
  | fileNotFound => exact ⟨false, rfl⟩
  | timeoutExpired => exact ⟨false, rfl⟩
  | raised e => exact absurd hr (h _ e)

/-- Under an oracle whose imports raise nothing but ImportError,
check_python_module returns a boolean. -/
theorem check_python_module_no_raise (env : Env) (module : String)
    (h : ∀ m e, env.importModule m ≠ ImportOutcome.raised e) :
    ∃ b, check_python_module env module = Except.ok b := by
  unfold check_python_module
  cases hm : env.importModule module with
  | ok => exact ⟨true, rfl⟩
  | importError => exact ⟨false, rfl⟩
  | raised e => exact absurd hm (h _ e)

/-- Under a benign import oracle the required-packages section completes. -/
theorem report_required_no_raise (env : Env)
    (h : ∀ m e, env.importModule m ≠ ImportOutcome.raised e) :
    ∀ l, ∃ L, report_required env l = Except.ok L := by
  intro l
  induction l with
  | nil => exact ⟨[], rfl⟩
  | cons p rest ih =>
    obtain ⟨L, hL⟩ := ih
    obtain ⟨b, hb⟩ := check_python_module_no_raise env p.2 h
    obtain ⟨pn, im⟩ := p
    exact ⟨_, report_required_cons env pn im rest b L hb hL⟩

/-- Under a benign import oracle the optional-packages section completes. -/
theorem report_optional_no_raise (env : Env)
    (h : ∀ m e, env.importModule m ≠ ImportOutcome.raised e) :
    ∀ l, ∃ L, report_optional env l = Except.ok L := by
  intro l
  induction l with
  | nil => exact ⟨[], rfl⟩
  | cons p rest ih =>
    obtain ⟨L, hL⟩ := ih
    obtain ⟨pn, im, ds⟩ := p
    obtain ⟨b, hb⟩ := check_python_module_no_raise env im h
    exact ⟨_, report_optional_cons env pn im ds rest b L hb hL⟩

/-- Under a benign subprocess oracle the external-tools section completes. -/
theorem report_tools_no_raise (env : Env)
    (h : ∀ c e, env.run c ≠ RunOutcome.raised e) :
    ∀ l, ∃ tl, report_tools env l = Except.ok tl := by
  intro l
  induction l with
  | nil => exact ⟨([], 0), rfl⟩
  | cons p rest ih =>
    obtain ⟨tl, htl⟩ := ih
    obtain ⟨c, n, d, i⟩ := p
    obtain ⟨b, hb⟩ := check_command_no_raise env c n h
    exact ⟨_, report_tools_cons env c n d i rest b tl hb htl⟩

/-- Composition: when all three probed sections complete, the whole run
completes. -/
theorem main_run_is_ok (env : Env) (reqL optL : List String) (tl : List String × Nat)
    (h1 : report_required env required_packages = Except.ok reqL)
    (h2 : report_optional env optional_packages = Except.ok optL)
    (h3 : report_tools env external_tools = Except.ok tl) :
    ∃ out, main_run env = Except.ok out := by
  unfold main_run
  rw [h1, h2, h3]
  exact ⟨_, rfl⟩

/-- C4: under any oracle that raises nothing the script does not catch
(missing packages, absent tools, timeouts and an unset environment
variable are all allowed), the run completes top-to-bottom and the process
exit status is 0. -/
theorem claim_c4 (env : Env)
    (hrun : ∀ c e, env.run c ≠ RunOutcome.raised e)
    (himp : ∀ m e, env.importModule m ≠ ImportOutcome.raised e) :
    (∃ out, main_run env = Except.ok out) ∧ script_exit_code env = 0 := by
  obtain ⟨reqL, h1⟩ := report_required_no_raise env himp required_packages
  obtain ⟨optL, h2⟩ := report_optional_no_raise env himp optional_packages
  obtain ⟨tl, h3⟩ := report_tools_no_raise env hrun external_tools
  obtain ⟨out, hout⟩ := main_run_is_ok env reqL optL tl h1 h2 h3
  exact ⟨⟨out, hout⟩, by simp [script_exit_code, hout]⟩

/-- Witness for C4 at the concrete oracle where every check fails: the run
still completes and exits 0. -/
theorem claim_c4_witness :
    (∃ out, main_run envAllMissing = Except.ok out) ∧ script_exit_code envAllMissing = 0 :=
  claim_c4 envAllMissing (fun c e => by simp [envAllMissing])
    (fun m e => by simp [envAllMissing])

/-- C8: the result of check_command does not depend on its second argument
name: under one and the same oracle, two calls with the same cmd and any
two names return the same result. -/
theorem claim_c8 (env : Env) (cmd name1 name2 : String) :
    check_command env cmd name1 = check_command env cmd name2 := rfl

/-- C10: in every completed run the tools_available counter equals the
number of entries of the three-element tool table whose check_command
probe succeeded, hence it is at most 3, and the ALWAYS AVAILABLE built-in
scanner line is printed regardless of that count. -/
theorem claim_c10 (env : Env) (out : List String) (tl : List String × Nat)
    (h : main_run env = Except.ok out)
    (ht : report_tools env external_tools = Except.ok tl) :
    tl.2 = List.countP (fun t => decide (check_command env t.1 t.2.1 = Except.ok true))
        external_tools
    ∧ tl.2 ≤ 3
    ∧ "  [ALWAYS AVAILABLE] Built-in Secret Scanner" ∈ out := by
  obtain ⟨hc, hl⟩ := report_tools_count env external_tools tl ht
  obtain ⟨reqL, optL, tl', h1, h2, h3, hout⟩ := main_run_ok env out h
  refine ⟨hc, by simpa [external_tools] using hl, ?_⟩
  subst hout
  simp [List.mem_append]

/-- Witness for C10 at the concrete oracle where every tool probe exits 0:
the counter is 3 and the built-in scanner line is present. -/
theorem claim_c10_witness :
    ∃ out tl, main_run envAllOk = Except.ok out ∧
      report_tools envAllOk external_tools = Except.ok tl ∧
      (tl.2 = List.countP (fun t => decide (check_command envAllOk t.1 t.2.1 = Except.ok true))
          external_tools
        ∧ tl.2 ≤ 3
        ∧ "  [ALWAYS AVAILABLE] Built-in Secret Scanner" ∈ out) :=
  ⟨_, _, rfl, rfl, claim_c10 envAllOk _ _ rfl rfl⟩

/-- C5: in every completed run, when zero external tools were detected the
summary has the literal substring about no external tools, and when a
positive number N was detected the summary has the substring made of the
decimal count followed by the external tool(s) available text. -/
theorem claim_c5 (env : Env) (out : List String) (tl : List String × Nat)
    (h : main_run env = Except.ok out)
    (ht : report_tools env external_tools = Except.ok tl) :
    (tl.2 = 0 → outputContains out "No external tools installed.")
    ∧ (0 < tl.2 → outputContains out (toString tl.2 ++ " external tool(s) available")) := by
  obtain ⟨reqL, optL, tl', h1, h2, h3, hout⟩ := main_run_ok env out h
  rw [ht] at h3
  injection h3 with h3
  subst h3
  subst hout
  constructor
  · intro h0
    refine ⟨"\n[INFO] No external tools installed.", ?_, "\n[INFO] ", "", by decide⟩
    simp [h0, List.mem_append]
  · intro hpos
    have hne : (tl.2 == 0) = false := by
      simp only [beq_eq_false_iff_ne, ne_eq]
      omega
    refine ⟨"\n[OK] " ++ toString tl.2 ++ " external tool(s) available + built-in scanner",
      ?_, "\n[OK] ", " + built-in scanner", ?_⟩
    · simp [hne, List.mem_append]
    · have hsplit : (" external tool(s) available + built-in scanner" : String) =
          " external tool(s) available" ++ " + built-in scanner" := by decide
      rw [hsplit]
      simp [String.append_assoc]

/-- Witness for C5 at the concrete oracle with no tool installed: the
summary substring about no external tools appears. -/
theorem claim_c5_witness :
    ∃ out tl, main_run envAllMissing = Except.ok out ∧
      report_tools envAllMissing external_tools = Except.ok tl ∧ tl.2 = 0 ∧
      outputContains out "No external tools installed." :=
  ⟨_, _, rfl, rfl, rfl, (claim_c5 envAllMissing _ _ rfl rfl).1 rfl⟩

/-- C6: in every completed run, when the monitored variable is unset the
output has the fallback-mode substring, and when it is set to a non-empty
value the output has the AI insights enabled substring. -/
theorem claim_c6 (env : Env) (out : List String) (h : main_run env = Except.ok out) :
    (env.getenv "OPENAI_API_KEY" = none →
      outputContains out "AI insights will use fallback mode")
    ∧ (∀ s, env.getenv "OPENAI_API_KEY" = some s → s ≠ "" →
      outputContains out "AI insights enabled") := by
  obtain ⟨reqL, optL, tl, h1, h2, h3, hout⟩ := main_run_ok env out h
  subst hout
  constructor
  · intro hg
    refine ⟨"  [NOT SET] OPENAI_API_KEY - AI insights will use fallback mode", ?_,
      "  [NOT SET] OPENAI_API_KEY - ", "", by decide⟩
    simp [hg, pyTruthy, List.mem_append]
  · intro s hg hs
    have hp : pyTruthy (env.getenv "OPENAI_API_KEY") = true := by
      rw [hg]
      simp only [pyTruthy, Bool.not_eq_true']
      cases he : s.isEmpty
      · rfl
      · exact absurd ((String.isEmpty_iff s).mp he) hs
    refine ⟨"  [OK] OPENAI_API_KEY is set (AI insights enabled)", ?_,
      "  [OK] OPENAI_API_KEY is set (", ")", by decide⟩
    simp [hp, List.mem_append]

/-- Witness for C6 at concrete oracles: unset variable gives the fallback
substring, a non-empty value gives the enabled substring. -/
theorem claim_c6_witness :
    (∃ out, main_run envAllMissing = Except.ok out ∧
      outputContains out "AI insights will use fallback mode") ∧
    (∃ out, main_run envAllOk = Except.ok out ∧
      outputContains out "AI insights enabled") :=
  ⟨⟨_, rfl, (claim_c6 envAllMissing _ rfl).1 rfl⟩,
   ⟨_, rfl, (claim_c6 envAllOk _ rfl).2 "sk-key" rfl (by decide)⟩⟩

/-- C7: in every completed run, a version below the 3.9 threshold puts a
line with the WARNING tag in the output, and a version at or above the
threshold puts the compatible line in the output. -/
theorem claim_c7 (env : Env) (out : List String) (h : main_run env = Except.ok out) :
    ((env.version_info.1 < 3 ∨ (env.version_info.1 = 3 ∧ env.version_info.2.1 < 9)) →
      outputContains out "[WARNING]")
    ∧ (¬(env.version_info.1 < 3 ∨ (env.version_info.1 = 3 ∧ env.version_info.2.1 < 9)) →
      outputContains out "[OK] Python version is compatible") := by
  obtain ⟨reqL, optL, tl, h1, h2, h3, hout⟩ := main_run_ok env out h
  subst hout
  have hiff : versionInfoLt env.version_info (3, 9) = true ↔
      (env.version_info.1 < 3 ∨ (env.version_info.1 = 3 ∧ env.version_info.2.1 < 9)) := by
    simp [versionInfoLt]
  constructor
  · intro hv
    have hb := hiff.mpr hv
    refine ⟨"  [WARNING] Python 3.9+ is recommended", ?_,
      "  ", " Python 3.9+ is recommended", by decide⟩
    simp [hb, List.mem_append]
  · intro hv
    have hb : versionInfoLt env.version_info (3, 9) = false := by
      cases hq : versionInfoLt env.version_info (3, 9)
      · rfl
      · exact absurd (hiff.mp hq) hv
    refine ⟨"  [OK] Python version is compatible", ?_,
      "  ", "", by decide⟩
    simp [hb, List.mem_append]

/-- Witness for C7 at concrete oracles: interpreter 3.8.10 yields the
WARNING substring, interpreter 3.11.0 yields the compatible line. -/
theorem claim_c7_witness :
    (∃ out, main_run envOldPython = Except.ok out ∧ outputContains out "[WARNING]") ∧
    (∃ out, main_run envAllOk = Except.ok out ∧
      outputContains out "[OK] Python version is compatible") :=
  ⟨⟨_, rfl, (claim_c7 envOldPython _ rfl).1 (by decide)⟩,
   ⟨_, rfl, (claim_c7 envAllOk _ rfl).2 (by decide)⟩⟩

/-- check_command never reads getenv. -/
theorem check_command_setGetenv (env : Env) (g : String → Option String) (cmd nm : String) :
    check_command (setGetenv env g) cmd nm = check_command env cmd nm := rfl

/-- check_python_module never reads getenv. -/
theorem check_python_module_setGetenv (env : Env) (g : String → Option String) (m : String) :
    check_python_module (setGetenv env g) m = check_python_module env m := rfl

/-- The required-packages section never reads getenv. -/
theorem report_required_setGetenv (env : Env) (g : String → Option String)
    (l : List (String × String)) :
    report_required (setGetenv env g) l = report_required env l := by
  induction l with
  | nil => rfl
  | cons p rest ih =>
    obtain ⟨pn, im⟩ := p
    simp only [report_required, ih, check_python_module_setGetenv]

/-- The optional-packages section never reads getenv. -/
theorem report_optional_setGetenv (env : Env) (g : String → Option String)
    (l : List (String × String × String)) :
    report_optional (setGetenv env g) l = report_optional env l := by
  induction l with
  | nil => rfl
  | cons p rest ih =>
    obtain ⟨pn, im, ds⟩ := p
    simp only [report_optional, ih, check_python_module_setGetenv]

/-- The external-tools section never reads getenv. -/
theorem report_tools_setGetenv (env : Env) (g : String → Option String)
    (l : List (String × String × String × String)) :
    report_tools (setGetenv env g) l = report_tools env l := by
  induction l with
  | nil => rfl
  | cons p rest ih =>
    obtain ⟨c, n, d, i⟩ := p
    simp only [report_tools, ih, check_command_setGetenv]

/-- Inversion of a successful report_required step. -/
theorem report_required_ok_inv (env : Env) (pn im : String) (rest : List (String × String))
    (L : List String) (h : report_required env ((pn, im) :: rest) = Except.ok L) :
    ∃ b L', check_python_module env im = Except.ok b ∧
      report_required env rest = Except.ok L' ∧
      L = (if b then ["  [OK] " ++ pn ++ " installed"]
        else ["  [MISSING] " ++ pn ++ " - install with: pip install " ++ pn]) ++ L' := by
  cases hb : check_python_module env im with
  | error e => simp [report_required, hb, Bind.bind, Except.bind] at h
  | ok b =>
    cases hL : report_required env rest with
    | error e => simp [report_required, hb, hL, Bind.bind, Except.bind] at h
    | ok L' =>
      refine ⟨b, L', rfl, rfl, ?_⟩
      rw [report_required_cons env pn im rest b L' hb hL] at h
      exact (Except.ok.injEq _ _ ▸ h).symm

/-- Inversion of a successful report_optional step. -/
theorem report_optional_ok_inv (env : Env) (pn im ds : String)
    (rest : List (String × String × String))
    (L : List String) (h : report_optional env ((pn, im, ds) :: rest) = Except.ok L) :
    ∃ b L', check_python_module env im = Except.ok b ∧
      report_optional env rest = Except.ok L' ∧
      L = (if b then ["  [OK] " ++ pn ++ " - " ++ ds]
        else ["  [OPTIONAL] " ++ pn ++ " - " ++ ds,
              "             Install with: pip install " ++ pn]) ++ L' := by
  cases hb : check_python_module env im with
  | error e => simp [report_optional, hb, Bind.bind, Except.bind] at h
  | ok b =>
    cases hL : report_optional env rest with
    | error e => simp [report_optional, hb, hL, Bind.bind, Except.bind] at h
    | ok L' =>
      refine ⟨b, L', rfl, rfl, ?_⟩
      rw [report_optional_cons env pn im ds rest b L' hb hL] at h
      exact (Except.ok.injEq _ _ ▸ h).symm

/-- Every line of the required-packages section is the OK line or the
MISSING line of some table entry. -/
theorem report_required_lines (env : Env) (l : List (String × String)) (L : List String)
    (h : report_required env l = Except.ok L) :
    ∀ line ∈ L, ∃ p ∈ l, line = "  [OK] " ++ p.1 ++ " installed" ∨
      line = "  [MISSING] " ++ p.1 ++ " - install with: pip install " ++ p.1 := by
  induction l generalizing L with
  | nil =>
    simp only [report_required, Except.ok.injEq] at h
    rw [← h]
    simp
  | cons p rest ih =>
    obtain ⟨pn, im⟩ := p
    obtain ⟨b, L', hb, hL', hLeq⟩ := report_required_ok_inv env pn im rest L h
    intro line hline
    subst hLeq
    rw [List.mem_append] at hline
    cases hline with
    | inl hl =>
      cases b
      · simp only [if_neg Bool.false_ne_true, List.mem_singleton] at hl
        exact ⟨(pn, im), List.mem_cons_self _ _, Or.inr hl⟩
      · simp at hl
        exact ⟨(pn, im), List.mem_cons_self _ _, Or.inl hl⟩
    | inr hl =>
      obtain ⟨q, hq, hor⟩ := ih L' hL' line hl
      exact ⟨q, List.mem_cons_of_mem _ hq, hor⟩

/-- Every line of the optional-packages section is the OK line, the
OPTIONAL line or the install-hint line of some table entry. -/
theorem report_optional_lines (env : Env) (l : List (String × String × String))
    (L : List String) (h : report_optional env l = Except.ok L) :
    ∀ line ∈ L, ∃ p ∈ l, line = "  [OK] " ++ p.1 ++ " - " ++ p.2.2 ∨
      line = "  [OPTIONAL] " ++ p.1 ++ " - " ++ p.2.2 ∨
      line = "             Install with: pip install " ++ p.1 := by
  induction l generalizing L with
  | nil =>
    simp only [report_optional, Except.ok.injEq] at h
    rw [← h]
    simp
  | cons p rest ih =>
    obtain ⟨pn, im, ds⟩ := p
    obtain ⟨b, L', hb, hL', hLeq⟩ := report_optional_ok_inv env pn im ds rest L h
    intro line hline
    subst hLeq
    rw [List.mem_append] at hline
    cases hline with
    | inl hl =>
      cases b
      · simp only [if_neg Bool.false_ne_true, List.mem_cons, List.mem_singleton,
          List.not_mem_nil, or_false] at hl
        cases hl with
        | inl hl => exact ⟨(pn, im, ds), List.mem_cons_self _ _, Or.inr (Or.inl hl)⟩
        | inr hl => exact ⟨(pn, im, ds), List.mem_cons_self _ _, Or.inr (Or.inr hl)⟩
      · simp at hl
        exact ⟨(pn, im, ds), List.mem_cons_self _ _, Or.inl hl⟩
    | inr hl =>
      obtain ⟨q, hq, hor⟩ := ih L' hL' line hl
      exact ⟨q, List.mem_cons_of_mem _ hq, hor⟩

/-- Every line of the external-tools section is the OK line, the NOT
INSTALLED line or the install-hint line of some table entry. -/
theorem report_tools_lines (env : Env) (l : List (String × String × String × String))
    (tl : List String × Nat) (h : report_tools env l = Except.ok tl) :
    ∀ line ∈ tl.1, ∃ p ∈ l, line = "  [OK] " ++ p.2.1 ++ " - " ++ p.2.2.1 ∨
      line = "  [NOT INSTALLED] " ++ p.2.1 ++ " - " ++ p.2.2.1 ∨
      line = "                  Install: " ++ p.2.2.2 := by
  induction l generalizing tl with
  | nil =>
    simp only [report_tools, Except.ok.injEq] at h
    rw [← h]
    simp
  | cons p rest ih =>
    obtain ⟨c, n, d, i⟩ := p
    obtain ⟨b, rtl, hb, hrest, htl⟩ := report_tools_ok_inv env c n d i rest tl h
    intro line hline
    subst htl
    simp only [List.mem_append] at hline
    cases hline with
    | inl hl =>
      cases b
      · simp only [if_neg Bool.false_ne_true, List.mem_cons, List.mem_singleton,
          List.not_mem_nil, or_false] at hl
        cases hl with
        | inl hl => exact ⟨(c, n, d, i), List.mem_cons_self _ _, Or.inr (Or.inl hl)⟩
        | inr hl => exact ⟨(c, n, d, i), List.mem_cons_self _ _, Or.inr (Or.inr hl)⟩
      · simp at hl
        exact ⟨(c, n, d, i), List.mem_cons_self _ _, Or.inl hl⟩
    | inr hl =>
      obtain ⟨q, hq, hor⟩ := ih rtl hrest line hl
      exact ⟨q, List.mem_cons_of_mem _ hq, hor⟩

/-- Two strings whose first characters differ are different, stated for a
left operand that is an append whose left part starts with a known
character. -/
theorem append_ne_of_head_ne (a b t : String) (c d : Char) (l1 l2 : List Char)
    (ha : a.data = c :: l1) (ht : t.data = d :: l2) (hcd : c ≠ d) : a ++ b ≠ t := by
  intro h
  have hd := congrArg String.data h
  rw [String.data_append, ha, ht, List.cons_append] at hd
  injection hd with h1 _
  exact hcd h1

/-- C9: OPENAI_API_KEY set to the empty string is treated exactly as
unset: under any oracle, overriding the variable to the empty string and
overriding it to absent give identical runs; and every completed run whose
oracle reports the empty string for the variable prints the two NOT SET
fallback lines and does not print the AI-insights-enabled line. -/
theorem claim_c9 :
    (∀ env : Env,
      main_run (setGetenv env
          (fun k => if k = "OPENAI_API_KEY" then some "" else env.getenv k)) =
        main_run (setGetenv env
          (fun k => if k = "OPENAI_API_KEY" then none else env.getenv k)))
    ∧ ∀ (env : Env) (out : List String),
        env.getenv "OPENAI_API_KEY" = some "" →
        main_run env = Except.ok out →
        "  [NOT SET] OPENAI_API_KEY - AI insights will use fallback mode" ∈ out ∧
        "            Set with: export OPENAI_API_KEY=your-key" ∈ out ∧
        "  [OK] OPENAI_API_KEY is set (AI insights enabled)" ∉ out := by
  constructor
  · intro env
    unfold main_run
    simp only [report_required_setGetenv, report_optional_setGetenv, report_tools_setGetenv]
    rfl
  · intro env out hg h
    obtain ⟨reqL, optL, tl, h1, h2, h3, hout⟩ := main_run_ok env out h
    have hp : pyTruthy (env.getenv "OPENAI_API_KEY") = false := by rw [hg]; rfl
    subst hout
    refine ⟨?_, ?_, ?_⟩
    · simp [hp, List.mem_append]
    · simp [hp, List.mem_append]
    · rw [hp]
      simp only [List.mem_append, not_or]
      repeat' apply And.intro
      all_goals first
        | decide
        | (cases versionInfoLt env.version_info (3, 9) <;> decide)
        | (cases tl.2 == 0 <;>
            first
              | (rw [if_pos rfl]; decide)
              | (rw [if_neg Bool.false_ne_true]
                 simp only [List.mem_singleton]
                 exact fun he =>
                   append_ne_of_head_ne _ _ _ '\n' ' ' _ _ rfl rfl (by decide) he.symm))
        | (simp only [List.mem_singleton]
           exact fun he =>
             append_ne_of_head_ne _ _ _ '\n' ' ' _ _ rfl rfl (by decide) he.symm)
        | (intro hmem
           obtain ⟨p, hmem', hor⟩ :=
             report_required_lines env required_packages reqL h1 _ hmem
           simp only [required_packages, List.mem_cons, List.not_mem_nil, or_false] at hmem'
           rcases hmem' with rfl | rfl <;> rcases hor with h' | h' <;> revert h' <;> decide)
        | (intro hmem
           obtain ⟨p, hmem', hor⟩ :=
             report_optional_lines env optional_packages optL h2 _ hmem
           simp only [optional_packages, List.mem_cons, List.not_mem_nil, or_false] at hmem'
           rcases hmem' with rfl | rfl <;> rcases hor with h' | h' | h' <;>
             revert h' <;> decide)
        | (intro hmem
           obtain ⟨p, hmem', hor⟩ :=
             report_tools_lines env external_tools tl h3 _ hmem
           simp only [external_tools, List.mem_cons, List.not_mem_nil, or_false] at hmem'
           rcases hmem' with rfl | rfl | rfl <;> rcases hor with h' | h' | h' <;>
             revert h' <;> decide)

/-- Witness for C9 at the concrete oracle with the variable set to the
empty string: the NOT SET lines are printed and the enabled line is not. -/
theorem claim_c9_witness :
    ∃ out, main_run envEmptyKey = Except.ok out ∧
      ("  [NOT SET] OPENAI_API_KEY - AI insights will use fallback mode" ∈ out ∧
       "            Set with: export OPENAI_API_KEY=your-key" ∈ out ∧
       "  [OK] OPENAI_API_KEY is set (AI insights enabled)" ∉ out) :=
  ⟨_, rfl, claim_c9.2 envEmptyKey _ rfl rfl⟩

end VerifySetup
